import Mathlib

/-!
Verification of the earth-engine repository's development HTTP servers.

The repository holds three near-duplicate wrapper scripts around CPython's
`http.server.SimpleHTTPRequestHandler`:
  * `serve.py` (handler `ESModuleHTTPRequestHandler`): CORS headers, MIME
    overrides for `.js`/`.mjs`/`.wasm`, and a remap of the URL prefix
    `/earth-engine-js/` onto the directory `earth-engine-js` under the
    current working directory;
  * `simple-server.py` (handler `MyHandler`): cache-busting headers and a
    query-string strip in `do_GET`;
  * `web/serve.py` (handler `WebGPUDevServer`): CORS plus cache-busting
    headers, MIME overrides for `.js`/`.wasm`/`.wgsl`, and the same
    query-string strip.

Python strings are embedded as lists of characters (`PyStr`); the handful
of `str`/`posixpath` operations the scripts rely on are translated below,
following the CPython 3.11 sources of `http.server`, `posixpath` and
`urllib.parse`. The base class's extension-table MIME guess depends on the
host's MIME database, so it enters as a function parameter `sg`.
-/

/-- A Python `str`, embedded as its list of characters. -/
abbrev PyStr := List Char

/-- Python `s.split(c, 1)[0]`: the characters of `s` before the first
occurrence of `c` (all of `s` when `c` does not occur). -/
def split1 (c : Char) : PyStr → PyStr
  | [] => []
  | x :: xs => if x = c then [] else x :: split1 c xs

/-- Python `s.split(c)`. -/
def splitChar (c : Char) : PyStr → List PyStr
  | [] => [[]]
  | x :: xs =>
    if x = c then [] :: splitChar c xs
    else
      match splitChar c xs with
      | [] => [[x]]
      | h :: t => (x :: h) :: t

/-- Python `s.startswith(p)`. -/
def startswith (p s : PyStr) : Bool := p.isPrefixOf s

/-- Python `s.endswith(p)`. -/
def endswith (p s : PyStr) : Bool := p.isSuffixOf s

/-- The characters Python's `str.rstrip()` removes. -/
def pySpace (c : Char) : Bool :=
  c == ' ' || c == '\t' || c == '\n' || c == '\r' || c == '\x0b' || c == '\x0c'

/-- Python `s.rstrip()`. -/
def rstrip (s : PyStr) : PyStr := (s.reverse.dropWhile pySpace).reverse

/-- `posixpath.join(a, b)` (one step of `os.path.join` on posix): an
absolute `b` discards `a`; otherwise a separator is inserted unless `a` is
empty or already ends in one. -/
def pyjoin (a b : PyStr) : PyStr :=
  if startswith ['/'] b then b
  else if a.isEmpty || endswith ['/'] a then a ++ b
  else a ++ '/' :: b

/-- A hexadecimal digit, as accepted by `urllib.parse.unquote`. -/
def hexDigit (c : Char) : Bool :=
  ('0' ≤ c && c ≤ '9') || ('a' ≤ c && c ≤ 'f') || ('A' ≤ c && c ≤ 'F')

/-- The value of a hexadecimal digit. -/
def hexVal (c : Char) : Nat :=
  if '0' ≤ c && c ≤ '9' then c.toNat - '0'.toNat
  else if 'a' ≤ c && c ≤ 'f' then c.toNat - 'a'.toNat + 10
  else c.toNat - 'A'.toNat + 10

/-- `urllib.parse.unquote` restricted to single-byte escapes: `%xy` with two
hex digits becomes the character with code `16*x + y`; a `%` not followed by
two hex digits stays literal. (Multi-byte UTF-8 escape sequences are outside
the ASCII paths this development reasons about; no claim involves `%`.) -/
def unquote : PyStr → PyStr
  | [] => []
  | '%' :: a :: b :: rest2 =>
    if hexDigit a && hexDigit b then
      Char.ofNat (16 * hexVal a + hexVal b) :: unquote rest2
    else '%' :: unquote (a :: b :: rest2)
  | c :: rest => c :: unquote rest

/-- `posixpath.normpath`: collapse empty and `.` components, cancel `..`
against a preceding component, keep leading `..` only on relative paths,
and preserve an initial `//` (but not `///` or more). -/
def normpath (path : PyStr) : PyStr :=
  if path = [] then ['.']
  else
    let initial_slashes : Nat :=
      if startswith ['/'] path then
        if startswith ['/', '/'] path && ! startswith ['/', '/', '/'] path then 2 else 1
      else 0
    let new_comps := (splitChar '/' path).foldl
      (fun acc comp =>
        if comp == ([] : PyStr) || comp == ['.'] then acc
        else if comp != ['.', '.'] || (initial_slashes == 0 && acc.isEmpty)
            || (! acc.isEmpty && acc.getLast? == some ['.', '.']) then
          acc ++ [comp]
        else if ! acc.isEmpty then acc.dropLast
        else acc)
      []
    let p := List.replicate initial_slashes '/' ++ List.intercalate ['/'] new_comps
    if p = [] then ['.'] else p

/-- The tail of CPython's `SimpleHTTPRequestHandler.translate_path` once the
query and fragment are gone: remember whether the (right-stripped) path ended
in a slash, unquote, normalize, split on `/`, and join the surviving words
onto `directory`, ignoring empty words, `.`, `..` and any word that has a
dirname (`os.path.dirname(word)` is truthy exactly when the word contains a
slash, which a `split('/')` component never does). -/
def super_core (directory stripped : PyStr) : PyStr :=
  let trailing_slash := endswith ['/'] (rstrip stripped)
  let p := normpath (unquote stripped)
  let words := (splitChar '/' p).filter (fun w => ! w.isEmpty)
  let res := words.foldl
    (fun acc word =>
      if word.contains '/' || word == ['.'] || word == ['.', '.'] then acc
      else pyjoin acc word)
    directory
  if trailing_slash then res ++ ['/'] else res

/-- CPython's `SimpleHTTPRequestHandler.translate_path` with document root
`directory`: abandon everything from the first `?` and the first `#`, then
resolve as in `super_core`. -/
def super_translate_path (directory path : PyStr) : PyStr :=
  super_core directory (split1 '#' (split1 '?' path))

/-- The remapped URL segment of serve.py, `'/earth-engine-js/'`. -/
def eePfx : PyStr := "/earth-engine-js/".toList

/-- The remap target directory name of serve.py, `'earth-engine-js'`. -/
def eeDir : PyStr := "earth-engine-js".toList

/-- serve.py `ESModuleHTTPRequestHandler.translate_path` after its own
query/fragment strip: a path starting with `/earth-engine-js/` maps to
`os.path.join(os.getcwd(), 'earth-engine-js', rel_path)` where `rel_path`
is the path with that segment sliced off; anything else goes to the base
class's `translate_path`. -/
def ES_translate_core (cwd stripped : PyStr) : PyStr :=
  if startswith eePfx stripped then
    pyjoin (pyjoin cwd eeDir) (stripped.drop eePfx.length)
  else
    super_translate_path cwd stripped

/-- serve.py `ESModuleHTTPRequestHandler.translate_path`: strip the query
string and fragment, then remap or fall through (`main` has `chdir`-ed to
the script directory, which is the document root `cwd`). -/
def ESModule_translate_path (cwd path : PyStr) : PyStr :=
  ES_translate_core cwd (split1 '#' (split1 '?' path))

/-- simple-server.py's resolution of a request path: `MyHandler.do_GET`
replaces `self.path` by `self.path.split('?')[0]` and delegates to the base
class, whose `translate_path` does the rest. -/
def MyHandler_resolve (directory path : PyStr) : PyStr :=
  super_translate_path directory (split1 '?' path)

/-- web/serve.py's resolution of a request path: `WebGPUDevServer.do_GET`
strips the query string exactly as simple-server.py does and delegates to
the base class. -/
def WebGPU_resolve (directory path : PyStr) : PyStr :=
  super_translate_path directory (split1 '?' path)

/-- The components of the file the operating system finally opens for a
resolved path: split on `/` and resolve `.` and `..` lexically (`..` at the
root stays at the root, as the kernel resolves it). -/
def realParts (p : PyStr) : List PyStr :=
  (splitChar '/' p).foldl
    (fun acc comp =>
      if comp == ([] : PyStr) || comp == ['.'] then acc
      else if comp == ['.', '.'] then acc.dropLast
      else acc ++ [comp])
    []

/-- A resolved filesystem path escapes the document root when the file the
operating system opens is not below the root directory. -/
def escapes (root resolved : PyStr) : Bool :=
  ! (realParts root).isPrefixOf (realParts resolved)

/-- `'application/javascript'`. -/
def appJavascript : PyStr := "application/javascript".toList

/-- `'application/wasm'`. -/
def appWasm : PyStr := "application/wasm".toList

/-- `'text/plain'`. -/
def textPlain : PyStr := "text/plain".toList

/-- The extension `.js`. -/
def jsExt : PyStr := ['.', 'j', 's']

/-- The extension `.mjs`. -/
def mjsExt : PyStr := ['.', 'm', 'j', 's']

/-- The extension `.wasm`. -/
def wasmExt : PyStr := ['.', 'w', 'a', 's', 'm']

/-- The extension `.wgsl`. -/
def wgslExt : PyStr := ['.', 'w', 'g', 's', 'l']

/-- The exception raised by unpacking a Python string of length other than
two into the pattern `mimetype, _`. -/
def valueError : String := "ValueError"

/-- serve.py `ESModuleHTTPRequestHandler.guess_type`. The base class's
`guess_type` returns a plain string (CPython `http.server`), so the line
`mimetype, _ = super().guess_type(path)` iterates that string: it raises
`ValueError` unless the string has exactly two characters, in which case
each variable is bound to a one-character string. The elif chain then
overrides `mimetype` for `.js`, `.mjs` and `.wasm`, and the function
returns the pair `(mimetype, None)`. The base guesser is the parameter
`sg`, since its table depends on the host's MIME database. -/
def ESModule_guess_type (sg : PyStr → PyStr) (path : PyStr) :
    Except String (PyStr × Option PyStr) :=
  match sg path with
  | [a, _b] =>
    let mimetype : PyStr := [a]
    let mimetype :=
      if endswith jsExt path then appJavascript
      else if endswith mjsExt path then appJavascript
      else if endswith wasmExt path then appWasm
      else mimetype
    Except.ok (mimetype, none)
  | _ => Except.error valueError

/-- web/serve.py `WebGPUDevServer.guess_type`: remove the query string,
fetch the base guess, then return the override for `.js`, `.wasm` or
`.wgsl`, or else the base guess. -/
def WebGPU_guess_type (sg : PyStr → PyStr) (path0 : PyStr) : PyStr :=
  let path := split1 '?' path0
  let mimetype := sg path
  if endswith jsExt path then appJavascript
  else if endswith wasmExt path then appWasm
  else if endswith wgslExt path then textPlain
  else mimetype

/-- The headers simple-server.py `MyHandler.end_headers` adds to every
response before flushing. -/
def MyHandler_end_headers : List (String × String) :=
  [("Cache-Control", "no-cache, no-store, must-revalidate"),
   ("Pragma", "no-cache"),
   ("Expires", "0")]

/-- The headers serve.py `ESModuleHTTPRequestHandler.end_headers` adds to
every response before flushing. -/
def ESModule_end_headers : List (String × String) :=
  [("Access-Control-Allow-Origin", "*"),
   ("Access-Control-Allow-Methods", "GET, POST, OPTIONS"),
   ("Access-Control-Allow-Headers", "Content-Type")]

/-- The headers web/serve.py `WebGPUDevServer.end_headers` adds to every
response before flushing. -/
def WebGPU_end_headers : List (String × String) :=
  [("Access-Control-Allow-Origin", "*"),
   ("Access-Control-Allow-Methods", "GET, POST, OPTIONS"),
   ("Access-Control-Allow-Headers", "Content-Type"),
   ("Cache-Control", "no-cache, no-store, must-revalidate"),
   ("Pragma", "no-cache"),
   ("Expires", "0")]

/-- Modelled from the spec: `build_response_headers(is_dev_mode)` of the
unified configurable server of section 4.1, which is not among the source
files (the sources are three fixed variants): always include
`Access-Control-Allow-Origin: *`; with development headers enabled, also
the extended CORS and no-cache set. -/
def build_response_headers (is_dev_mode : Bool) : List (String × String) :=
  ("Access-Control-Allow-Origin", "*") ::
    (if is_dev_mode then
      [("Access-Control-Allow-Methods", "GET, POST, OPTIONS"),
       ("Access-Control-Allow-Headers", "Content-Type"),
       ("Cache-Control", "no-cache, no-store, must-revalidate"),
       ("Pragma", "no-cache"),
       ("Expires", "0")]
    else [])

/-- An exception ending `serve_forever`: the operator's interrupt, or any
other error. -/
inductive PyExc
  | keyboardInterrupt
  | otherError

/-- CPython's exit status when an exception escapes the script uncaught: an
unhandled `KeyboardInterrupt` makes the interpreter re-raise `SIGINT`
against itself, so the observed status is 128 + 2 = 130; any other
unhandled exception exits with status 1. -/
def uncaught_exit (e : PyExc) : Nat :=
  match e with
  | PyExc.keyboardInterrupt => 130
  | PyExc.otherError => 1

/-- serve.py `main`: `serve_forever` under `except KeyboardInterrupt:
sys.exit(0)`; no other handler, so any other exception escapes. -/
def serve_exit (e : PyExc) : Nat :=
  match e with
  | PyExc.keyboardInterrupt => 0
  | PyExc.otherError => uncaught_exit PyExc.otherError

/-- web/serve.py `main`: `except KeyboardInterrupt: sys.exit(0)` and
`except Exception as e: sys.exit(1)`. -/
def webserve_exit (e : PyExc) : Nat :=
  match e with
  | PyExc.keyboardInterrupt => 0
  | PyExc.otherError => 1

/-- simple-server.py module body: `serve_forever` inside the `with` block
with no `try`/`except` at all, so every exception escapes uncaught. -/
def simpleserver_exit (e : PyExc) : Nat := uncaught_exit e

/-! ### Helper lemmas about the embedded string operations -/

/-- Cutting at the first `c` ignores everything from an appended `c` on. -/
theorem split1_append_cons (c : Char) (p q : PyStr) :
    split1 c (p ++ c :: q) = split1 c p := by
  induction p with
  | nil => simp [split1]
  | cons x xs ih => by_cases h : x = c <;> simp [split1, h, ih]

/-- The cut-off string no longer contains the separator. -/
theorem not_mem_split1 (c : Char) (s : PyStr) : c ∉ split1 c s := by
  induction s with
  | nil => simp [split1]
  | cons x xs ih =>
    by_cases h : x = c
    · simp [split1, h]
    · simp [split1, h, ih]
      exact fun hh => h hh.symm

/-- Cutting at a character that does not occur changes nothing. -/
theorem split1_eq_self (c : Char) (s : PyStr) (h : c ∉ s) : split1 c s = s := by
  induction s with
  | nil => rfl
  | cons x xs ih =>
    rw [List.mem_cons, not_or] at h
    have hx : ¬ x = c := fun hh => h.1 hh.symm
    simp [split1, hx, ih h.2]

/-- Cutting twice at the same character is the same as cutting once. -/
theorem split1_idem (c : Char) (s : PyStr) : split1 c (split1 c s) = split1 c s :=
  split1_eq_self c _ (not_mem_split1 c s)

/-- Cutting to the right of a block free of the separator keeps the block. -/
theorem split1_append_of_not_mem (c : Char) (p q : PyStr) (h : c ∉ p) :
    split1 c (p ++ q) = p ++ split1 c q := by
  induction p with
  | nil => rfl
  | cons x xs ih =>
    rw [List.mem_cons, not_or] at h
    have hx : ¬ x = c := fun hh => h.1 hh.symm
    simp [split1, hx, ih h.2]

/-- The cut-off string is an initial block of the original. -/
theorem exists_append_split1 (c : Char) (s : PyStr) : ∃ u, s = split1 c s ++ u := by
  induction s with
  | nil => exact ⟨[], rfl⟩
  | cons x xs ih =>
    by_cases h : x = c
    · exact ⟨x :: xs, by simp [split1, h]⟩
    · obtain ⟨u, hu⟩ := ih
      refine ⟨u, ?_⟩
      simp [split1, h]
      exact hu

/-- Cutting at `c` and then at a different `d` ignores everything from an
appended `d` on. -/
theorem split1_swap_append_cons (c d : Char) (hcd : d ≠ c) (p f : PyStr) :
    split1 d (split1 c (p ++ d :: f)) = split1 d (split1 c p) := by
  induction p with
  | nil => simp [split1, hcd]
  | cons x xs ih =>
    by_cases hxc : x = c
    · simp [split1, hxc]
    · by_cases hxd : x = d
      · simp [split1, hxc, hxd, hcd]
      · simp [split1, hxc, hxd, ih]

/-- A list starts with itself, whatever follows. -/
theorem isPrefixOf_append_self (p q : PyStr) : p.isPrefixOf (p ++ q) = true := by
  simp

/-- What a true `isPrefixOf` means, as an equation. -/
theorem isPrefixOf_exists (p s : PyStr) (h : p.isPrefixOf s = true) :
    ∃ r, s = p ++ r := by
  simp at h
  obtain ⟨r, hr⟩ := h
  exact ⟨r, hr.symm⟩

/-- `startswith` survives undoing a `split1` cut. -/
theorem startswith_of_startswith_split1 (c : Char) (t s : PyStr)
    (h : startswith t (split1 c s) = true) : startswith t s = true := by
  obtain ⟨r, hr⟩ := isPrefixOf_exists t _ h
  obtain ⟨u, hu⟩ := exists_append_split1 c s
  show t.isPrefixOf s = true
  rw [hu, hr, List.append_assoc]
  exact isPrefixOf_append_self t (r ++ u)

/-- `endswith` unfolded to a reversed `isPrefixOf`. -/
theorem endswith_rev (a s : PyStr) : endswith a s = a.reverse.isPrefixOf s.reverse := rfl

/-- A path ending in `.mjs` does not end in `.js`. -/
theorem ends_mjs_not_js (s : PyStr) (h : endswith mjsExt s = true) :
    endswith jsExt s = false := by
  rw [endswith_rev] at h ⊢
  rw [show mjsExt.reverse = ['s', 'j', 'm', '.'] from rfl] at h
  obtain ⟨r, hr⟩ := isPrefixOf_exists _ _ h
  rw [show jsExt.reverse = ['s', 'j', '.'] from rfl, hr]
  simp [List.isPrefixOf]

/-- A path ending in `.wasm` does not end in `.js`. -/
theorem ends_wasm_not_js (s : PyStr) (h : endswith wasmExt s = true) :
    endswith jsExt s = false := by
  rw [endswith_rev] at h ⊢
  rw [show wasmExt.reverse = ['m', 's', 'a', 'w', '.'] from rfl] at h
  obtain ⟨r, hr⟩ := isPrefixOf_exists _ _ h
  rw [show jsExt.reverse = ['s', 'j', '.'] from rfl, hr]
  simp [List.isPrefixOf]

/-- A path ending in `.wgsl` does not end in `.js`. -/
theorem ends_wgsl_not_js (s : PyStr) (h : endswith wgslExt s = true) :
    endswith jsExt s = false := by
  rw [endswith_rev] at h ⊢
  rw [show wgslExt.reverse = ['l', 's', 'g', 'w', '.'] from rfl] at h
  obtain ⟨r, hr⟩ := isPrefixOf_exists _ _ h
  rw [show jsExt.reverse = ['s', 'j', '.'] from rfl, hr]
  simp [List.isPrefixOf]

/-- A path ending in `.wgsl` does not end in `.wasm`. -/
theorem ends_wgsl_not_wasm (s : PyStr) (h : endswith wgslExt s = true) :
    endswith wasmExt s = false := by
  rw [endswith_rev] at h ⊢
  rw [show wgslExt.reverse = ['l', 's', 'g', 'w', '.'] from rfl] at h
  obtain ⟨r, hr⟩ := isPrefixOf_exists _ _ h
  rw [show wasmExt.reverse = ['m', 's', 'a', 'w', '.'] from rfl, hr]
  simp [List.isPrefixOf]

/-- A path ending in `.mjs` does not end in `.wasm`. -/
theorem ends_mjs_not_wasm (s : PyStr) (h : endswith mjsExt s = true) :
    endswith wasmExt s = false := by
  rw [endswith_rev] at h ⊢
  rw [show mjsExt.reverse = ['s', 'j', 'm', '.'] from rfl] at h
  obtain ⟨r, hr⟩ := isPrefixOf_exists _ _ h
  rw [show wasmExt.reverse = ['m', 's', 'a', 'w', '.'] from rfl, hr]
  simp [List.isPrefixOf]

/-- A path ending in `.mjs` does not end in `.wgsl`. -/
theorem ends_mjs_not_wgsl (s : PyStr) (h : endswith mjsExt s = true) :
    endswith wgslExt s = false := by
  rw [endswith_rev] at h ⊢
  rw [show mjsExt.reverse = ['s', 'j', 'm', '.'] from rfl] at h
  obtain ⟨r, hr⟩ := isPrefixOf_exists _ _ h
  rw [show wgslExt.reverse = ['l', 's', 'g', 'w', '.'] from rfl, hr]
  simp [List.isPrefixOf]

/-- Appending the directory name of the remap target after a slash never
produces a string ending in a slash. -/
theorem ends_slash_append_eeDir (xs : PyStr) :
    endswith ['/'] (xs ++ '/' :: eeDir) = false := by
  rw [endswith_rev, show (['/'] : PyStr).reverse = ['/'] from rfl, List.reverse_append]
  rw [show ('/' :: eeDir).reverse = 's' :: ("j-enigne-htrae/".toList) from rfl]
  rw [List.cons_append]
  simp [List.isPrefixOf]

/-- A list with something appended after an element is not empty. -/
theorem isEmpty_append_cons (xs ys : PyStr) (y : Char) :
    (xs ++ y :: ys).isEmpty = false := by
  cases xs <;> rfl

/-- serve.py's `guess_type` raises whenever the base class's guess does not
have exactly two characters (which no MIME type string has): the unpack
`mimetype, _ = ...` fails before any override is reached. -/
theorem ESModule_guess_type_raises (sg : PyStr → PyStr) (p : PyStr)
    (h : (sg p).length ≠ 2) : ESModule_guess_type sg p = Except.error valueError := by
  rcases hsg : sg p with _ | ⟨a, _ | ⟨b, _ | ⟨c, t⟩⟩⟩
  · simp [ESModule_guess_type, hsg]
  · simp [ESModule_guess_type, hsg]
  · exact absurd (by rw [hsg]; rfl) h
  · simp [ESModule_guess_type, hsg]

/-- web/serve.py's `guess_type` on a stripped path ending in `.js`. -/
theorem WebGPU_guess_type_js (sg : PyStr → PyStr) (p : PyStr)
    (h : endswith jsExt (split1 '?' p) = true) :
    WebGPU_guess_type sg p = appJavascript := by
  simp [WebGPU_guess_type, h]

/-- web/serve.py's `guess_type` on a stripped path ending in `.wasm`. -/
theorem WebGPU_guess_type_wasm (sg : PyStr → PyStr) (p : PyStr)
    (h : endswith wasmExt (split1 '?' p) = true) :
    WebGPU_guess_type sg p = appWasm := by
  simp [WebGPU_guess_type, h, ends_wasm_not_js _ h]

/-- web/serve.py's `guess_type` on a stripped path ending in `.wgsl`. -/
theorem WebGPU_guess_type_wgsl (sg : PyStr → PyStr) (p : PyStr)
    (h : endswith wgslExt (split1 '?' p) = true) :
    WebGPU_guess_type sg p = textPlain := by
  simp [WebGPU_guess_type, h, ends_wgsl_not_js _ h, ends_wgsl_not_wasm _ h]

/-- web/serve.py's `guess_type` on a stripped path ending in `.mjs`: none
of the overrides matches, so the base guess comes back unchanged. -/
theorem WebGPU_guess_type_mjs (sg : PyStr → PyStr) (p : PyStr)
    (h : endswith mjsExt (split1 '?' p) = true) :
    WebGPU_guess_type sg p = sg (split1 '?' p) := by
  simp [WebGPU_guess_type, ends_mjs_not_js _ h, ends_mjs_not_wasm _ h,
    ends_mjs_not_wgsl _ h]

/-! ### The claims -/

/-- Claim C1 (code bug): for the request path
`/earth-engine-js/../../etc/passwd` against a document root
`/srv/earth-engine`, serve.py's `translate_path` joins the `..` segments
onto the remap target unchecked, so the resolved file escapes the document
root and is then served rather than rejected; the base class's resolution
of the very same request would have stayed inside the root. -/
theorem C1_remap_escapes_root :
    escapes ("/srv/earth-engine".toList)
        (ESModule_translate_path ("/srv/earth-engine".toList)
          ("/earth-engine-js/../../etc/passwd".toList)) = true ∧
    escapes ("/srv/earth-engine".toList)
        (super_translate_path ("/srv/earth-engine".toList)
          ("/earth-engine-js/../../etc/passwd".toList)) = false := by
  exact ⟨by decide, by decide⟩

/-- Claim C2 counterexample: simple-server.py's `end_headers` adds no
`Access-Control-Allow-Origin` header, so not every server sends it. -/
theorem C2_counterexample :
    (("Access-Control-Allow-Origin", "*") ∈ MyHandler_end_headers) = False :=
  eq_false (by decide)

/-- Claim C2 amended: serve.py and web/serve.py attach
`Access-Control-Allow-Origin: *` to every response, but simple-server.py
attaches only the cache-busting headers and no CORS header at all. -/
theorem C2_cors_header_by_server :
    ("Access-Control-Allow-Origin", "*") ∈ ESModule_end_headers ∧
    ("Access-Control-Allow-Origin", "*") ∈ WebGPU_end_headers ∧
    (("Access-Control-Allow-Origin", "*") ∈ MyHandler_end_headers) = False := by
  exact ⟨by decide, by decide, eq_false (by decide)⟩

/-- Claim C6: with development headers enabled every response carries the
no-cache `Cache-Control` header and with them disabled it is absent; in the
sources, the two scripts that send development headers (simple-server.py
and web/serve.py) always send it, and serve.py never does. -/
theorem C6_cache_control_header :
    ("Cache-Control", "no-cache, no-store, must-revalidate")
        ∈ build_response_headers true ∧
    (("Cache-Control", "no-cache, no-store, must-revalidate")
        ∈ build_response_headers false) = False ∧
    ("Cache-Control", "no-cache, no-store, must-revalidate")
        ∈ MyHandler_end_headers ∧
    ("Cache-Control", "no-cache, no-store, must-revalidate")
        ∈ WebGPU_end_headers ∧
    (("Cache-Control", "no-cache, no-store, must-revalidate")
        ∈ ESModule_end_headers) = False := by
  exact ⟨by decide, eq_false (by decide), by decide, by decide, eq_false (by decide)⟩

/-- Claim C7 counterexample: for the request path `/earth-engine-js//x` the
remainder after the remapped segment begins with a slash, so
`os.path.join` discards the remap target entirely: the resolved path is
`/x`, which does not even lie under `/srv`. -/
theorem C7_counterexample :
    ESModule_translate_path ("/srv/earth-engine".toList)
        ("/earth-engine-js//x".toList) = "/x".toList ∧
    startswith ("/srv".toList)
        (ESModule_translate_path ("/srv/earth-engine".toList)
          ("/earth-engine-js//x".toList)) = false := by
  exact ⟨by decide, by decide⟩

/-- Claim C8 counterexample: simple-server.py does not exit with status 0 on
an operator interrupt. -/
theorem C8_counterexample :
    (simpleserver_exit PyExc.keyboardInterrupt = 0) = False :=
  eq_false (by decide)

/-- Claim C8 amended: serve.py and web/serve.py catch `KeyboardInterrupt`
and call `sys.exit(0)`; simple-server.py installs no handler, so the
interrupt escapes and the process terminates with status 130. -/
theorem C8_interrupt_exit_status :
    serve_exit PyExc.keyboardInterrupt = 0 ∧
    webserve_exit PyExc.keyboardInterrupt = 0 ∧
    simpleserver_exit PyExc.keyboardInterrupt = 130 := by
  exact ⟨rfl, rfl, rfl⟩

/-- Claim C9: the request path `/earth-engine-js` without a trailing slash
does not match the remap rule of serve.py: it falls through to the base
class's document-root-relative resolution, which maps it to
`cwd/earth-engine-js`. -/
theorem C9_no_trailing_slash_falls_through (cwd : PyStr) :
    ESModule_translate_path cwd ("/earth-engine-js".toList)
      = super_translate_path cwd ("/earth-engine-js".toList) ∧
    ESModule_translate_path cwd ("/earth-engine-js".toList) = pyjoin cwd eeDir :=
  ⟨rfl, rfl⟩

/-- Stripping query then fragment ignores an appended query suffix. -/
theorem strip2_append_query (p q : PyStr) :
    split1 '#' (split1 '?' (p ++ '?' :: q)) = split1 '#' (split1 '?' p) := by
  rw [split1_append_cons]

/-- Stripping query then fragment ignores an appended fragment suffix. -/
theorem strip2_append_fragment (p f : PyStr) :
    split1 '#' (split1 '?' (p ++ '#' :: f)) = split1 '#' (split1 '?' p) :=
  split1_swap_append_cons '?' '#' (by decide) p f

/-- simple-server.py's resolution, reduced to the shared core applied to the
doubly stripped path: the second query strip inside the base class is
idempotent over the one `do_GET` already performed. -/
theorem MyHandler_resolve_strip (dir p : PyStr) :
    MyHandler_resolve dir p = super_core dir (split1 '#' (split1 '?' p)) := by
  unfold MyHandler_resolve super_translate_path
  rw [split1_idem]

/-- web/serve.py's resolution, reduced the same way. -/
theorem WebGPU_resolve_strip (dir p : PyStr) :
    WebGPU_resolve dir p = super_core dir (split1 '#' (split1 '?' p)) := by
  unfold WebGPU_resolve super_translate_path
  rw [split1_idem]

/-- Claim C3: in each of the three servers, the resolved filesystem path is
invariant to a query suffix beginning at the first `?` and to a fragment
suffix beginning at the first `#` of the request path. -/
theorem C3_query_fragment_invariance (cwd dir wdir p q f : PyStr) :
    ESModule_translate_path cwd (p ++ '?' :: q) = ESModule_translate_path cwd p ∧
    ESModule_translate_path cwd (p ++ '#' :: f) = ESModule_translate_path cwd p ∧
    MyHandler_resolve dir (p ++ '?' :: q) = MyHandler_resolve dir p ∧
    MyHandler_resolve dir (p ++ '#' :: f) = MyHandler_resolve dir p ∧
    WebGPU_resolve wdir (p ++ '?' :: q) = WebGPU_resolve wdir p ∧
    WebGPU_resolve wdir (p ++ '#' :: f) = WebGPU_resolve wdir p := by
  refine ⟨?_, ?_, ?_, ?_, ?_, ?_⟩
  · unfold ESModule_translate_path
    rw [strip2_append_query]
  · unfold ESModule_translate_path
    rw [strip2_append_fragment]
  · rw [MyHandler_resolve_strip, MyHandler_resolve_strip, strip2_append_query]
  · rw [MyHandler_resolve_strip, MyHandler_resolve_strip, strip2_append_fragment]
  · rw [WebGPU_resolve_strip, WebGPU_resolve_strip, strip2_append_query]
  · rw [WebGPU_resolve_strip, WebGPU_resolve_strip, strip2_append_fragment]

/-- Claim C4 counterexample: with base guess `text/javascript` (what the
MIME table of this era's CPython returns for both `.js` and `.mjs` files),
serve.py's `guess_type` raises ValueError on a `.js` path instead of
returning `application/javascript`, and web/serve.py's `guess_type`
returns the base guess, not `application/javascript`, for a `.mjs` path. -/
theorem C4_counterexample :
    ESModule_guess_type (fun _ => "text/javascript".toList) ("/js/core.js".toList)
      = Except.error valueError ∧
    WebGPU_guess_type (fun _ => "text/javascript".toList) ("/js/loader.mjs".toList)
      = "text/javascript".toList ∧
    ("text/javascript".toList = appJavascript) = False := by
  exact ⟨rfl, rfl, eq_false (by decide)⟩

/-- Claim C4 amended: for every path whose stripped form ends in `.js`,
web/serve.py's `guess_type` returns `application/javascript` whatever the
base guess; serve.py's `guess_type` instead raises ValueError whenever the
base guess is not a two-character string (no MIME type is), so it never
returns its `.js`/`.mjs` override; and web/serve.py has no `.mjs` case at
all: on a stripped path ending in `.mjs` it returns the base guess. -/
theorem C4_js_mjs_mime (sg : PyStr → PyStr) (p m : PyStr)
    (hp : endswith jsExt (split1 '?' p) = true)
    (hpl : (sg p).length ≠ 2)
    (hm : endswith mjsExt (split1 '?' m) = true)
    (hml : (sg m).length ≠ 2) :
    WebGPU_guess_type sg p = appJavascript ∧
    ESModule_guess_type sg p = Except.error valueError ∧
    WebGPU_guess_type sg m = sg (split1 '?' m) ∧
    ESModule_guess_type sg m = Except.error valueError :=
  ⟨WebGPU_guess_type_js sg p hp, ESModule_guess_type_raises sg p hpl,
   WebGPU_guess_type_mjs sg m hm, ESModule_guess_type_raises sg m hml⟩

/-- Claim C4 witness: the amended statement evaluated at `/a/b.js` and
`/c/d.mjs` with base guess `text/javascript`. -/
theorem C4_js_mjs_mime_witness :
    (endswith jsExt (split1 '?' ("/a/b.js".toList)) = true ∧
     ("text/javascript".toList).length ≠ 2 ∧
     endswith mjsExt (split1 '?' ("/c/d.mjs".toList)) = true) ∧
    (WebGPU_guess_type (fun _ => "text/javascript".toList) ("/a/b.js".toList)
        = appJavascript ∧
     ESModule_guess_type (fun _ => "text/javascript".toList) ("/a/b.js".toList)
        = Except.error valueError ∧
     WebGPU_guess_type (fun _ => "text/javascript".toList) ("/c/d.mjs".toList)
        = (fun _ => "text/javascript".toList) (split1 '?' ("/c/d.mjs".toList)) ∧
     ESModule_guess_type (fun _ => "text/javascript".toList) ("/c/d.mjs".toList)
        = Except.error valueError) :=
  ⟨⟨by decide, by decide, by decide⟩,
   C4_js_mjs_mime (fun _ => "text/javascript".toList) ("/a/b.js".toList)
     ("/c/d.mjs".toList) (by decide) (by decide) (by decide) (by decide)⟩

/-- Claim C5 counterexample: with base guess `application/octet-stream`,
serve.py's `guess_type` raises ValueError on a `.wasm` path rather than
returning `application/wasm`. -/
theorem C5_counterexample :
    ESModule_guess_type (fun _ => "application/octet-stream".toList)
        ("/m.wasm".toList) = Except.error valueError := rfl

/-- Claim C5 amended: web/serve.py returns `application/wasm` for every
stripped path ending in `.wasm` and `text/plain` for every stripped path
ending in `.wgsl`; serve.py lists a `.wasm` override but its `guess_type`
raises ValueError on the base class's string result before any override
can be returned (and serve.py has no `.wgsl` override at all). -/
theorem C5_wasm_wgsl_mime (sg : PyStr → PyStr) (p w : PyStr)
    (hp : endswith wasmExt (split1 '?' p) = true)
    (hw : endswith wgslExt (split1 '?' w) = true)
    (hpl : (sg p).length ≠ 2) :
    WebGPU_guess_type sg p = appWasm ∧
    WebGPU_guess_type sg w = textPlain ∧
    ESModule_guess_type sg p = Except.error valueError :=
  ⟨WebGPU_guess_type_wasm sg p hp, WebGPU_guess_type_wgsl sg w hw,
   ESModule_guess_type_raises sg p hpl⟩

/-- Claim C5 witness: the amended statement evaluated at `/m.wasm` and
`/s.wgsl` with base guess `application/octet-stream`. -/
theorem C5_wasm_wgsl_mime_witness :
    (endswith wasmExt (split1 '?' ("/m.wasm".toList)) = true ∧
     endswith wgslExt (split1 '?' ("/s.wgsl".toList)) = true ∧
     ("application/octet-stream".toList).length ≠ 2) ∧
    (WebGPU_guess_type (fun _ => "application/octet-stream".toList)
        ("/m.wasm".toList) = appWasm ∧
     WebGPU_guess_type (fun _ => "application/octet-stream".toList)
        ("/s.wgsl".toList) = textPlain ∧
     ESModule_guess_type (fun _ => "application/octet-stream".toList)
        ("/m.wasm".toList) = Except.error valueError) :=
  ⟨⟨by decide, by decide, by decide⟩,
   C5_wasm_wgsl_mime (fun _ => "application/octet-stream".toList)
     ("/m.wasm".toList) ("/s.wgsl".toList) (by decide) (by decide) (by decide)⟩

/-- Claim C10: web/serve.py's `guess_type` strips the query string itself,
so its result on `p?q` is its result on `p`; in particular the extension
overrides apply even when the argument still carries a query string. -/
theorem C10_guess_type_query_invariance (sg : PyStr → PyStr) (p q : PyStr)
    (h : endswith jsExt (split1 '?' p) = true
        ∨ endswith wasmExt (split1 '?' p) = true
        ∨ endswith wgslExt (split1 '?' p) = true) :
    WebGPU_guess_type sg (p ++ '?' :: q) = WebGPU_guess_type sg p ∧
    (WebGPU_guess_type sg (p ++ '?' :: q) = appJavascript ∨
     WebGPU_guess_type sg (p ++ '?' :: q) = appWasm ∨
     WebGPU_guess_type sg (p ++ '?' :: q) = textPlain) := by
  have heq : WebGPU_guess_type sg (p ++ '?' :: q) = WebGPU_guess_type sg p := by
    unfold WebGPU_guess_type
    rw [split1_append_cons]
  refine ⟨heq, ?_⟩
  rw [heq]
  rcases h with h | h | h
  · exact Or.inl (WebGPU_guess_type_js sg p h)
  · exact Or.inr (Or.inl (WebGPU_guess_type_wasm sg p h))
  · exact Or.inr (Or.inr (WebGPU_guess_type_wgsl sg p h))

/-- Claim C10 witness: the invariance at `/a/b.js` with query `v=1` and base
guess `text/html`. -/
theorem C10_guess_type_query_invariance_witness :
    (endswith jsExt (split1 '?' ("/a/b.js".toList)) = true
        ∨ endswith wasmExt (split1 '?' ("/a/b.js".toList)) = true
        ∨ endswith wgslExt (split1 '?' ("/a/b.js".toList)) = true) ∧
    (WebGPU_guess_type (fun _ => "text/html".toList)
        ("/a/b.js".toList ++ '?' :: "v=1".toList)
      = WebGPU_guess_type (fun _ => "text/html".toList) ("/a/b.js".toList) ∧
     (WebGPU_guess_type (fun _ => "text/html".toList)
        ("/a/b.js".toList ++ '?' :: "v=1".toList) = appJavascript ∨
      WebGPU_guess_type (fun _ => "text/html".toList)
        ("/a/b.js".toList ++ '?' :: "v=1".toList) = appWasm ∨
      WebGPU_guess_type (fun _ => "text/html".toList)
        ("/a/b.js".toList ++ '?' :: "v=1".toList) = textPlain)) :=
  ⟨Or.inl (by decide),
   C10_guess_type_query_invariance (fun _ => "text/html".toList)
     ("/a/b.js".toList) ("v=1".toList) (Or.inl (by decide))⟩

/-- Claim C7 amended: for a request path formed as the remap segment
`/earth-engine-js/` followed by a remainder whose stripped form does not
itself begin with a slash, serve.py resolves to exactly
`cwd + '/earth-engine-js/' + stripped remainder` — the segment is replaced
by the remap target and nothing else changes (for a remainder beginning
with a slash, `os.path.join` instead discards the target, see the
counterexample); and every path that does not start with the segment falls
through to the base class's document-root resolution, so at most the one
remap rule applies. -/
theorem C7_remap_replaces_segment (cwd rest p2 : PyStr)
    (h1 : cwd.isEmpty = false)
    (h2 : endswith ['/'] cwd = false)
    (h3 : startswith ['/'] (split1 '#' (split1 '?' rest)) = false)
    (h4 : startswith eePfx p2 = false) :
    ESModule_translate_path cwd (eePfx ++ rest)
      = cwd ++ '/' :: (eeDir ++ '/' :: split1 '#' (split1 '?' rest)) ∧
    ESModule_translate_path cwd p2 = super_translate_path cwd p2 := by
  constructor
  · have hq : ('?' : Char) ∉ eePfx := by decide
    have hh : ('#' : Char) ∉ eePfx := by decide
    have hstrip : split1 '#' (split1 '?' (eePfx ++ rest))
        = eePfx ++ split1 '#' (split1 '?' rest) := by
      rw [split1_append_of_not_mem '?' eePfx rest hq,
          split1_append_of_not_mem '#' eePfx _ hh]
    have hc : startswith eePfx (eePfx ++ split1 '#' (split1 '?' rest)) = true :=
      isPrefixOf_append_self eePfx _
    have j1 : pyjoin cwd eeDir = cwd ++ '/' :: eeDir := by
      unfold pyjoin
      rw [show startswith ['/'] eeDir = false from rfl, h1, h2]
      simp
    have j2 : pyjoin (cwd ++ '/' :: eeDir) (split1 '#' (split1 '?' rest))
        = (cwd ++ '/' :: eeDir) ++ '/' :: split1 '#' (split1 '?' rest) := by
      unfold pyjoin
      rw [h3, isEmpty_append_cons, ends_slash_append_eeDir]
      simp
    unfold ESModule_translate_path ES_translate_core
    rw [hstrip, hc]
    simp only [if_true]
    rw [List.drop_left, j1, j2, List.append_assoc, List.cons_append]
  · have h4s : startswith eePfx (split1 '#' (split1 '?' p2)) = false := by
      cases hs : startswith eePfx (split1 '#' (split1 '?' p2)) with
      | false => rfl
      | true =>
        have g1 := startswith_of_startswith_split1 '#' eePfx (split1 '?' p2) hs
        have g2 := startswith_of_startswith_split1 '?' eePfx p2 g1
        rw [h4] at g2
        exact absurd g2 (by decide)
    have hnq : ('?' : Char) ∉ split1 '#' (split1 '?' p2) := by
      obtain ⟨u, hu⟩ := exists_append_split1 '#' (split1 '?' p2)
      intro hm
      exact not_mem_split1 '?' p2 (by rw [hu]; exact List.mem_append_left _ hm)
    unfold ESModule_translate_path ES_translate_core
    rw [h4s]
    simp only [Bool.false_eq_true, if_false]
    unfold super_translate_path
    rw [split1_eq_self '?' _ hnq, split1_idem]

/-- Claim C7 witness: the amended statement evaluated with document root
`/srv/earth-engine`, remainder `core.js` and non-matching path
`/web/run.html`. -/
theorem C7_remap_replaces_segment_witness :
    (("/srv/earth-engine".toList).isEmpty = false ∧
     endswith ['/'] ("/srv/earth-engine".toList) = false ∧
     startswith ['/'] (split1 '#' (split1 '?' ("core.js".toList))) = false ∧
     startswith eePfx ("/web/run.html".toList) = false) ∧
    (ESModule_translate_path ("/srv/earth-engine".toList)
        (eePfx ++ "core.js".toList)
      = "/srv/earth-engine".toList
          ++ '/' :: (eeDir ++ '/' :: split1 '#' (split1 '?' ("core.js".toList))) ∧
     ESModule_translate_path ("/srv/earth-engine".toList) ("/web/run.html".toList)
      = super_translate_path ("/srv/earth-engine".toList) ("/web/run.html".toList)) :=
  ⟨⟨by decide, by decide, by decide, by decide⟩,
   C7_remap_replaces_segment ("/srv/earth-engine".toList) ("core.js".toList)
     ("/web/run.html".toList) (by decide) (by decide) (by decide) (by decide)⟩
